import Mathlib

/-!
Shallow embedding of the two Python source files of this repository:

* `src/wandb/integration/sacred/__init__.py` — the `WandbObserver` adapter
  bridging sacred observer callbacks to the wandb client.  Each callback is
  modelled as a pure function from its inputs (and, where relevant, the
  observer state) to the list of side-effecting calls it issues against the
  wandb client, in order.
* `src/tests/functional_tests/t0_main/jobs/job_container_creation.py` — a
  straight-line job script, modelled as the trace of external calls it makes.
-/

namespace SacredWandb

/-- Python runtime values that can appear as sacred results, config values and
metric values in the adapter code paths: floats, ints, strings, dicts,
tuples, lists, numpy arrays and `None`. -/
inductive SacredValue where
  | pynone : SacredValue
  | float (q : Rat) : SacredValue
  | int (n : Int) : SacredValue
  | str (s : String) : SacredValue
  | dict (entries : List (String × SacredValue)) : SacredValue
  | tuple (elems : List SacredValue) : SacredValue
  | list (elems : List SacredValue) : SacredValue
  | ndarray (data : List Rat) : SacredValue

/-- Test `isinstance(r, float)`. -/
def isFloat : SacredValue → Bool
  | .float _ => true
  | _ => false

/-- Test `isinstance(r, int)`. -/
def isInt : SacredValue → Bool
  | .int _ => true
  | _ => false

/-- Test `isinstance(r, dict)`. -/
def isDict : SacredValue → Bool
  | .dict _ => true
  | _ => false

/-- Test `isinstance(r, tuple)`. -/
def isTuple : SacredValue → Bool
  | .tuple _ => true
  | _ => false

/-- Test `isinstance(r, numpy.ndarray)`. -/
def isNdarray : SacredValue → Bool
  | .ndarray _ => true
  | _ => false

/-- Test `isinstance(r, object)`: in Python every value is an instance of `object`,
so this test is constantly true. -/
def isObject (_ : SacredValue) : Bool :=
  true

/-- Python truthiness (`if result:`): `None`, zero numbers and empty
containers are falsy, everything else is truthy. -/
def truthy : SacredValue → Bool
  | .pynone => false
  | .float q => q != 0
  | .int n => n != 0
  | .str s => s != ""
  | .dict entries => !entries.isEmpty
  | .tuple elems => !elems.isEmpty
  | .list elems => !elems.isEmpty
  | .ndarray data => !data.isEmpty

/-- Conversion `float(r)` for the float/int branch of `completed_event`. -/
def floatOf : SacredValue → Rat
  | .float q => q
  | .int n => (n : Rat)
  | _ => 0

/-- The key/value pairs of a dict value (empty for non-dicts). -/
def dictEntries : SacredValue → List (String × SacredValue)
  | .dict entries => entries
  | _ => []

/-- The data of an ndarray value (empty for non-arrays). -/
def arrData : SacredValue → List Rat
  | .ndarray data => data
  | _ => []

/-- Rendering of `type(r)` as printed in the warning message of the adapter. -/
def typeName : SacredValue → String
  | .pynone => "NoneType"
  | .float _ => "float"
  | .int _ => "int"
  | .str _ => "str"
  | .dict _ => "dict"
  | .tuple _ => "tuple"
  | .list _ => "list"
  | .ndarray _ => "numpy.ndarray"

/-- One side-effecting call issued against the wandb client:
`wandb.log` of a plain mapping, `run.log_artifact` of an artifact built with
`wandb.Artifact(name, type)` plus `add_file`, `wandb.log` of a `wandb.Image`,
or `warnings.warn`. -/
inductive Action where
  | log (entries : List (String × SacredValue)) : Action
  | log_artifact (name : String) (typ : String) (file : SacredValue) : Action
  | log_image (name : String) (data : List Rat) : Action
  | warn (message : String) : Action

/-- The body of the `for i, r in enumerate(result)` loop of
`WandbObserver.completed_event`: ordered `isinstance` dispatch on one result
element `r` at index `i`, returning the calls it issues. -/
def dispatch_result (i : Nat) (r : SacredValue) : List Action :=
  if isFloat r || isInt r then
    [Action.log [("result_" ++ toString i, SacredValue.float (floatOf r))]]
  else if isDict r then
    [Action.log (dictEntries r)]
  else if isObject r then
    [Action.log_artifact ("result_" ++ toString i ++ ".pkl") "result" r]
  else if isNdarray r then
    [Action.log_image ("result_" ++ toString i) (arrData r)]
  else
    [Action.warn ("logging results does not support type " ++ typeName r ++
      " results. Ignoring this result")]

/-- The whole `enumerate` loop of `completed_event`, dispatching each element
in index order starting at `i`. -/
def dispatch_all : Nat → List SacredValue → List Action
  | _, [] => []
  | i, r :: rs => dispatch_result i r ++ dispatch_all (i + 1) rs

/-- Models `if not isinstance(result, tuple): result = (result,)` — the element list
`completed_event` iterates over. -/
def result_elems : SacredValue → List SacredValue
  | .tuple elems => elems
  | r => [r]

/-- Embeds `WandbObserver.completed_event`: the ordered list of wandb calls issued
for a given `result` argument.  The `if result:` guard is Python truthiness. -/
def completed_event (result : SacredValue) : List Action :=
  if truthy result then dispatch_all 0 (result_elems result) else []

/-- Embeds `WandbObserver.artifact_event`: defaults `content_type` to `"file"`,
builds `wandb.Artifact(name, type=content_type)`, attaches `filename`,
and uploads it via `run.log_artifact`. -/
def artifact_event (name : String) (filename : String) (content_type : Option String) :
    List Action :=
  [Action.log_artifact name (content_type.getD "file") (SacredValue.str filename)]

/-- The mutable run config (`self.run.config`), a key/value store. -/
def RunConfig : Type :=
  String → Option SacredValue

/-- One assignment `self.run.config[k] = v`. -/
def config_set (cfg : RunConfig) (k : String) (v : SacredValue) : RunConfig :=
  fun key => if key = k then some v else cfg key

/-- Embeds `WandbObserver.__update_config`: writes every key/value pair of `config`
into the run config in order, then sets `self.run.config["resources"] = []`. -/
def update_config (cfg : RunConfig) (config : List (String × SacredValue)) : RunConfig :=
  config_set (config.foldl (fun acc kv => config_set acc kv.1 kv.2) cfg)
    "resources" (SacredValue.list [])

/-- Embeds `WandbObserver.started_event`: ignores every argument except `config` and
delegates to `__update_config`. -/
def started_event (cfg : RunConfig) (config : List (String × SacredValue)) : RunConfig :=
  update_config cfg config

/-- Embeds `WandbObserver.resource_event` acting on the `self.resources` mapping.
Returns the new mapping together with the list of filenames whose digest was
computed during the call (the `get_digest` call trace), empty when the
filename is already cached. -/
def resource_event (digest : String → String) (resources : List (String × String))
    (filename : String) : List (String × String) × List String :=
  if (resources.lookup filename).isSome then (resources, [])
  else (resources ++ [(filename, digest filename)], [filename])

/-- A sequence of `resource_event` calls within one adapter lifetime, threading
the `self.resources` mapping and concatenating the `get_digest` call traces. -/
def run_resource_events (digest : String → String) :
    List (String × String) → List String → List (String × String) × List String
  | resources, [] => (resources, [])
  | resources, f :: fs =>
    let step := resource_event digest resources f
    let rest := run_resource_events digest step.1 fs
    (rest.1, step.2 ++ rest.2)

/-- A sacred metric series: the parallel `"steps"` and `"values"` sequences of
one entry of `metrics_by_name`. -/
structure MetricPtr where
  steps : List Int
  values : List SacredValue

/-- The body of the inner loop of `WandbObserver.log_metrics`: an ndarray
value is logged as a `wandb.Image` under the name of the metric, any other value is
logged raw under the name of the metric. -/
def log_metric_value (name : String) (v : SacredValue) : Action :=
  if isNdarray v then Action.log_image name (arrData v) else Action.log [(name, v)]

/-- Embeds `WandbObserver.log_metrics`: for each named metric, for each
`zip(steps, values)` pair, one logging call (the step itself is dropped). -/
def log_metrics (metrics_by_name : List (String × MetricPtr)) : List Action :=
  (metrics_by_name.map
    (fun m => (m.2.steps.zip m.2.values).map (fun sv => log_metric_value m.1 sv.2))).flatten

/-- One externally visible step of the job script
`job_container_creation.py`. -/
inductive JobEvent where
  | set_env (key value : String) : JobEvent
  | settings_update (key value : String) : JobEvent
  | init (project : String) (config : List (String × SacredValue)) : JobEvent
  | log (entries : List (String × SacredValue)) : JobEvent
  | finish : JobEvent

/-- The literal config dict passed to `wandb.init` by the job script. -/
def job_config : List (String × SacredValue) :=
  [("foo", SacredValue.str "bar"), ("lr", SacredValue.float (0.1 : Rat)),
    ("epochs", SacredValue.int 5)]

/-- Reads `run.config["epochs"]` as read back for the loop bound of the job script. -/
def config_epochs : Int :=
  match job_config.lookup "epochs" with
  | some (SacredValue.int n) => n
  | _ => 0

/-- Python `range(lo, hi)`. -/
def py_range (lo hi : Int) : List Int :=
  (List.range (hi - lo).toNat).map (fun k => lo + (k : Int))

/-- The trace of external calls made by `job_container_creation.py`, in
program order: set the `WANDB_DOCKER` environment marker, override the
`job_source` setting, `wandb.init` with the literal config, one `wandb.log`
per index of `range(1, run.config["epochs"])`, then `run.finish()`. -/
def job_container_creation : List JobEvent :=
  [JobEvent.set_env "WANDB_DOCKER" "my-test-container:dummy",
    JobEvent.settings_update "job_source" "image",
    JobEvent.init "test-job" job_config] ++
  (py_range 1 config_epochs).map (fun i => JobEvent.log [("loss", SacredValue.int i)]) ++
  [JobEvent.finish]

/-- A concrete digest function used to instantiate digest-cache statements. -/
def digest0 : String → String :=
  fun s => s ++ "-digest"

/-- A concrete pre-existing run config (every key already bound, including a
non-empty `resources` value) used to instantiate config statements. -/
def cfg0 : RunConfig :=
  fun _ => some (SacredValue.list [SacredValue.int 9])

/-! Helper lemmas shared by the claim theorems. -/

/-- No branch of the element dispatch of `completed_event` ever produces an
image-logging call: the `isinstance(r, object)` test is constantly true, so
the ndarray branch below it is unreachable. -/
lemma log_image_not_mem_dispatch (i : Nat) (r : SacredValue) (name : String)
    (data : List Rat) : Action.log_image name data ∉ dispatch_result i r := by
  unfold dispatch_result
  by_cases h1 : (isFloat r || isInt r) = true <;>
    by_cases h2 : isDict r = true <;>
      simp [h1, h2, isObject]

/-- No image-logging call appears anywhere in the dispatch of a result list. -/
lemma log_image_not_mem_dispatch_all (l : List SacredValue) (i : Nat) (name : String)
    (data : List Rat) : Action.log_image name data ∉ dispatch_all i l := by
  induction l generalizing i with
  | nil => simp [dispatch_all]
  | cons r rs ih =>
    simp only [dispatch_all, List.mem_append, not_or]
    exact ⟨log_image_not_mem_dispatch i r name data, ih (i + 1)⟩

/-- A non-tuple result is wrapped as a single-element list. -/
lemma result_elems_of_not_tuple (r : SacredValue) (h : isTuple r = false) :
    result_elems r = [r] := by
  cases r <;> simp_all [isTuple, result_elems]

end SacredWandb

namespace SacredWandb

/-- C1: the claim states that a result element of unsupported type, such as a
string, causes no metric-log call and no artifact upload and is answered by
exactly one warning.  On the code this fails: `isinstance(r, object)` is true
for every Python value, so a string element is captured by the generic-object
branch, which builds the artifact `result_0.pkl` of type `result` and uploads
it, and the warning branch is unreachable.  This theorem evaluates the
embedded `completed_event` at the failing input `("hello",)`. -/
theorem c1_unsupported_string_artifact_upload :
    completed_event (SacredValue.tuple [SacredValue.str "hello"]) =
      [Action.log_artifact "result_0.pkl" "result" (SacredValue.str "hello")] :=
  rfl

/-- C2: in `completed_event` the generic-object branch is matched before the
array-type branch, so no result ever produces an image-logging call (the
array branch is dead code), and every element that is not a float, not an
integer and not a mapping is handled by the generic-object branch, which
wraps it in an artifact of type `result` and uploads it via the run. -/
theorem c2_object_branch_precedes_array (result : SacredValue) (i : Nat)
    (r : SacredValue) :
    (∀ (name : String) (data : List Rat),
      Action.log_image name data ∉ completed_event result) ∧
    (isFloat r = false → isInt r = false → isDict r = false →
      dispatch_result i r =
        [Action.log_artifact ("result_" ++ toString i ++ ".pkl") "result" r]) := by
  constructor
  · intro name data
    unfold completed_event
    by_cases ht : truthy result = true
    · simpa [ht] using log_image_not_mem_dispatch_all (result_elems result) 0 name data
    · simp [ht]
  · intro h1 h2 h3
    unfold dispatch_result
    simp [h1, h2, h3, isObject]

/-- Witness for C2 at the concrete array element `ndarray [1, 2]`: it is not
logged as an image but uploaded as the artifact `result_0.pkl`. -/
theorem c2_object_branch_precedes_array_witness :
    Action.log_image "result_0" [1, 2] ∉
      completed_event (SacredValue.ndarray [1, 2]) ∧
    dispatch_result 0 (SacredValue.ndarray [1, 2]) =
      [Action.log_artifact "result_0.pkl" "result" (SacredValue.ndarray [1, 2])] :=
  ⟨(c2_object_branch_precedes_array (SacredValue.ndarray [1, 2]) 0
      (SacredValue.ndarray [1, 2])).1 "result_0" [1, 2],
    (c2_object_branch_precedes_array (SacredValue.ndarray [1, 2]) 0
      (SacredValue.ndarray [1, 2])).2 rfl rfl rfl⟩

/-- C3: a result element at index `i` that is a float or an integer produces
exactly one scalar metric-log call named `result_<i>` carrying `float(r)`,
and no other logging or artifact action for that element. -/
theorem c3_scalar_result_single_log (i : Nat) (r : SacredValue)
    (h : isFloat r = true ∨ isInt r = true) :
    dispatch_result i r =
      [Action.log [("result_" ++ toString i, SacredValue.float (floatOf r))]] := by
  unfold dispatch_result
  rcases h with h | h <;> simp [h]

/-- Witness for C3 at index 0 and the integer element 3. -/
theorem c3_scalar_result_single_log_witness :
    dispatch_result 0 (SacredValue.int 3) =
      [Action.log [("result_0", SacredValue.float 3)]] := by
  simpa using c3_scalar_result_single_log 0 (SacredValue.int 3) (Or.inr rfl)

/-- C4 counterexample: the claim states that a present non-sequence result is
wrapped as a single-element sequence and dispatched, but at the present
non-sequence result `0` the code performs nothing (the `if result:` guard is
truthiness, and `0` is falsy), while the claimed wrap-and-dispatch path would
log the scalar metric `result_0`. -/
theorem c4_falsy_present_counterexample :
    completed_event (SacredValue.int 0) = [] ∧
    dispatch_all 0 [SacredValue.int 0] =
      [Action.log [("result_0", SacredValue.float 0)]] :=
  ⟨rfl, rfl⟩

/-- C4 amended: when the result is absent the call is a no-op; when the
result is present, truthy, and not a tuple, it is wrapped as a single-element
sequence and each element is dispatched in index order by the same code path
used for multiple results; a truthy tuple has its elements dispatched in
index order directly. -/
theorem c4_wrap_and_dispatch_amended :
    completed_event SacredValue.pynone = [] ∧
    (∀ result : SacredValue, truthy result = true → isTuple result = false →
      completed_event result = dispatch_all 0 [result]) ∧
    (∀ elems : List SacredValue, truthy (SacredValue.tuple elems) = true →
      completed_event (SacredValue.tuple elems) = dispatch_all 0 elems) := by
  refine ⟨rfl, ?_, ?_⟩
  · intro result ht hnt
    simp [completed_event, ht, result_elems_of_not_tuple result hnt]
  · intro elems ht
    simp [completed_event, ht, result_elems]

/-- Witness for C4 at the truthy non-tuple result `1.0` and the truthy tuple
`(2,)`. -/
theorem c4_wrap_and_dispatch_witness :
    completed_event (SacredValue.float 1) = dispatch_all 0 [SacredValue.float 1] ∧
    completed_event (SacredValue.tuple [SacredValue.int 2]) =
      dispatch_all 0 [SacredValue.int 2] :=
  ⟨c4_wrap_and_dispatch_amended.2.1 (SacredValue.float 1) (by decide) rfl,
    c4_wrap_and_dispatch_amended.2.2 [SacredValue.int 2] rfl⟩

/-- C9: a present but falsy result — the integer 0, the float 0.0, the empty
tuple, the empty mapping — performs no metric-log call, no artifact upload
and emits no warning, because presence is tested by truthiness. -/
theorem c9_falsy_result_noop (result : SacredValue) (h : truthy result = false) :
    completed_event result = [] := by
  simp [completed_event, h]

/-- Witness for C9 at the falsy result 0: nothing is logged, in particular no
`result_0` metric. -/
theorem c9_falsy_result_noop_witness :
    truthy (SacredValue.int 0) = false ∧ completed_event (SacredValue.int 0) = [] :=
  ⟨rfl, c9_falsy_result_noop (SacredValue.int 0) rfl⟩

/-- Reading a config cell right after writing it returns the written value. -/
lemma config_set_same (cfg : RunConfig) (k : String) (v : SacredValue) :
    config_set cfg k v k = some v := by
  simp [config_set]

/-- Writing a config cell leaves every other cell unchanged. -/
lemma config_set_other (cfg : RunConfig) (k k' : String) (v : SacredValue)
    (h : k' ≠ k) : config_set cfg k v k' = cfg k' := by
  simp [config_set, h]

/-- Folding a sequence of config assignments whose keys avoid `k` leaves the
cell at `k` unchanged. -/
lemma foldl_config_set_not_mem (config : List (String × SacredValue))
    (cfg : RunConfig) (k : String) (h : k ∉ config.map Prod.fst) :
    config.foldl (fun acc kv => config_set acc kv.1 kv.2) cfg k = cfg k := by
  induction config generalizing cfg with
  | nil => rfl
  | cons kv rest ih =>
    simp only [List.map_cons, List.mem_cons, not_or] at h
    rw [List.foldl_cons, ih (config_set cfg kv.1 kv.2) h.2]
    exact config_set_other cfg kv.1 k kv.2 h.1

/-- Folding a sequence of config assignments with pairwise distinct keys sets
the cell of each written key to its written value. -/
lemma foldl_config_set_mem (config : List (String × SacredValue))
    (cfg : RunConfig) (k : String) (v : SacredValue)
    (hnd : (config.map Prod.fst).Nodup) (hmem : (k, v) ∈ config) :
    config.foldl (fun acc kv => config_set acc kv.1 kv.2) cfg k = some v := by
  induction config generalizing cfg with
  | nil => cases hmem
  | cons kv rest ih =>
    obtain ⟨a, b⟩ := kv
    simp only [List.map_cons, List.nodup_cons] at hnd
    rw [List.foldl_cons]
    rcases List.mem_cons.mp hmem with heq | hmem'
    · injection heq with h1 h2
      subst h1
      subst h2
      rw [foldl_config_set_not_mem rest _ k hnd.1]
      exact config_set_same cfg k v
    · exact ih (config_set cfg a b) hnd.2 hmem'

/-- C5: `started_event` writes every key/value pair of the supplied config
mapping into the run config and afterwards the `resources` key equals the
empty sequence, unconditionally overwriting any pre-existing value. -/
theorem c5_started_event_config_merge (cfg : RunConfig)
    (config : List (String × SacredValue)) (k : String) (v : SacredValue)
    (hnd : (config.map Prod.fst).Nodup) (hmem : (k, v) ∈ config)
    (hk : k ≠ "resources") :
    started_event cfg config k = some v ∧
    started_event cfg config "resources" = some (SacredValue.list []) := by
  constructor
  · rw [started_event, update_config, config_set_other _ _ _ _ hk]
    exact foldl_config_set_mem config cfg k v hnd hmem
  · rw [started_event, update_config, config_set_same]

/-- Witness for C5: starting from a config in which every key, `resources`
included, is pre-bound to a non-empty list, `started_event` with the mapping
`{"a": 1}` yields `a = 1` and `resources = []`. -/
theorem c5_started_event_config_merge_witness :
    started_event cfg0 [("a", SacredValue.int 1)] "a" = some (SacredValue.int 1) ∧
    started_event cfg0 [("a", SacredValue.int 1)] "resources" =
      some (SacredValue.list []) :=
  c5_started_event_config_merge cfg0 [("a", SacredValue.int 1)] "a"
    (SacredValue.int 1) (by simp) (by simp) (by decide)

/-- Looking up a key in a map extended on the right by one binding succeeds
exactly when the key is already bound or equals the new key. -/
lemma lookup_append_isSome (resources : List (String × String)) (g d f : String) :
    ((resources ++ [(g, d)]).lookup f).isSome =
      ((resources.lookup f).isSome || f == g) := by
  induction resources with
  | nil =>
    cases hfg : f == g <;> simp [List.lookup, hfg]
  | cons p rest ih =>
    obtain ⟨a, b⟩ := p
    cases hfa : f == a <;> simp [List.lookup, hfa, ih]

/-- Across any sequence of `resource_event` calls, the number of digest
computations for a filename `f` is 0 when `f` is already cached and otherwise
1 or 0 according to whether `f` occurs among the calls. -/
lemma run_resource_events_count (digest : String → String) (calls : List String) :
    ∀ (resources : List (String × String)) (f : String),
      (run_resource_events digest resources calls).2.count f =
        if (resources.lookup f).isSome then 0
        else if f ∈ calls then 1 else 0 := by
  induction calls with
  | nil =>
    intro resources f
    simp [run_resource_events]
  | cons g gs ih =>
    intro resources f
    by_cases hg : (resources.lookup g).isSome = true
    · have hstep : resource_event digest resources g = (resources, []) := by
        simp [resource_event, hg]
      simp only [run_resource_events, hstep, List.nil_append]
      rw [ih resources f]
      by_cases hf : (resources.lookup f).isSome = true
      · simp [hf]
      · have hfg : f ≠ g := fun e => hf (e ▸ hg)
        simp [hf, hfg]
    · have hstep : resource_event digest resources g =
          (resources ++ [(g, digest g)], [g]) := by
        simp [resource_event, hg]
      simp only [run_resource_events, hstep, List.singleton_append]
      rw [List.count_cons, ih (resources ++ [(g, digest g)]) f,
        lookup_append_isSome]
      simp only [Bool.not_eq_true] at hg
      by_cases hf : f = g
      · subst hf
        simp [hg]
      · have hfb : (f == g) = false := by
          simpa using hf
        by_cases hfs : (resources.lookup f).isSome = true <;>
          simp [hfs, hfb, hf, Ne.symm hf]

/-- C6: within one adapter lifetime (the `resources` mapping starts empty),
the digest of a filename is computed exactly once across any sequence of
`resource_event` calls — on the first call naming it — and a call naming an
already-cached filename computes nothing and leaves the mapping unchanged. -/
theorem c6_digest_computed_once (digest : String → String) (calls : List String)
    (f : String) (hf : f ∈ calls) :
    (run_resource_events digest [] calls).2.count f = 1 ∧
    (∀ resources : List (String × String), (resources.lookup f).isSome = true →
      resource_event digest resources f = (resources, [])) := by
  constructor
  · rw [run_resource_events_count digest calls [] f]
    simp [List.lookup, hf]
  · intro resources h
    simp [resource_event, h]

/-- Witness for C6: over the call sequence `["a", "b", "a"]` the digest of
`"a"` is computed exactly once, and a `resource_event` on a state already
caching `"a"` is a no-op. -/
theorem c6_digest_computed_once_witness :
    (run_resource_events digest0 [] ["a", "b", "a"]).2.count "a" = 1 ∧
    resource_event digest0 [("a", "x")] "a" = ([("a", "x")], []) :=
  ⟨(c6_digest_computed_once digest0 ["a", "b", "a"] "a" (by decide)).1,
    (c6_digest_computed_once digest0 ["a", "b", "a"] "a" (by decide)).2
      [("a", "x")] rfl⟩

/-- C7: for the metrics batch `{"loss": {"steps": [0, 1], "values": [0.9,
0.5]}}`, `log_metrics` issues exactly two metric-log calls under the name
`loss`, with value 0.9 first and value 0.5 second, in that order. -/
theorem c7_loss_batch_two_logs_in_order :
    log_metrics [("loss", ⟨[0, 1],
        [SacredValue.float (0.9 : Rat), SacredValue.float (0.5 : Rat)]⟩)] =
      [Action.log [("loss", SacredValue.float (0.9 : Rat))],
        Action.log [("loss", SacredValue.float (0.5 : Rat))]] :=
  rfl

/-- C8: the job script sets the `WANDB_DOCKER` environment marker first, then
overrides the `job_source` setting to `image`, then starts exactly one run
with the literal config `{"foo": "bar", "lr": 0.1, "epochs": 5}`, then logs
one metric per loop index from 1 up to but excluding the configured `epochs`
value, and then finalizes the run, in that order. -/
theorem c8_job_script_trace :
    job_container_creation =
      [JobEvent.set_env "WANDB_DOCKER" "my-test-container:dummy",
        JobEvent.settings_update "job_source" "image",
        JobEvent.init "test-job"
          [("foo", SacredValue.str "bar"), ("lr", SacredValue.float (0.1 : Rat)),
            ("epochs", SacredValue.int 5)],
        JobEvent.log [("loss", SacredValue.int 1)],
        JobEvent.log [("loss", SacredValue.int 2)],
        JobEvent.log [("loss", SacredValue.int 3)],
        JobEvent.log [("loss", SacredValue.int 4)],
        JobEvent.finish] :=
  rfl

/-- C10: for a metric whose `steps` and `values` sequences have different
lengths, `log_metrics` issues exactly `min (length steps) (length values)`
logging calls for that metric; the surplus entries of the longer sequence are
silently dropped and no error is raised. -/
theorem c10_mismatched_lengths_min (name : String) (steps : List Int)
    (values : List SacredValue) :
    (log_metrics [(name, ⟨steps, values⟩)]).length =
      min steps.length values.length := by
  simp [log_metrics]

end SacredWandb
